import Mathlib

/-!
Verification of the sentiment aggregation logic of the X_Agent repository.

The repository stores classified tweets in a Postgres table (`CREATE TABLE
tweets` in the frontend sources) and aggregates them with the
Monthly/Weekly Analysis SQL queries (`date_trunc` grouping in
`SearchBar.tsx`).  The frontend API client (`services/api.ts`) wraps the
backend HTTP endpoints.  This file embeds those pieces as executable Lean
definitions and proves the spec's testable properties about them.
-/

/-- Sentiment time-series granularity; the values of the `period_type`
column of `sentiment_timeseries` (`CHECK (period_type IN ('day', 'week',
'month'))`) and the units accepted by `date_trunc` in the two analysis
queries. -/
inductive PeriodType where
  | day : PeriodType
  | week : PeriodType
  | month : PeriodType
  deriving DecidableEq, Repr

/-- One row of the `tweets` table (`CREATE TABLE tweets`): tweet_id BIGINT,
analysis_id INTEGER, type VARCHAR(50), username VARCHAR(255), text TEXT,
created_at TIMESTAMPTZ (modelled as whole seconds since the Unix epoch),
sentiment VARCHAR(50), sentiment_score NUMERIC (modelled as an exact
rational). -/
structure Tweet where
  tweet_id : Int
  analysis_id : Int
  type : String
  username : String
  text : String
  created_at : Int
  sentiment : String
  sentiment_score : Rat
  deriving DecidableEq, Repr

/-- The three sentiment labels compared against by the SQL `CASE WHEN`
clauses. -/
def positiveLabel : String := "positive"

def neutralLabel : String := "neutral"

def negativeLabel : String := "negative"

def secondsPerDay : Int := 86400

/-- Day number (since 1970-01-01) holding the timestamp `t`. -/
def dayIndex (t : Int) : Int := t.fdiv secondsPerDay

/-- Postgres `date_trunc('day', t)`: midnight UTC of the day of `t`. -/
def truncDay (t : Int) : Int := secondsPerDay * dayIndex t

/-- The day number of the Monday on or before day `d`.  Day 0 (1970-01-01)
was a Thursday, so Mondays are the days congruent to 4 modulo 7. -/
def mondayIndex (d : Int) : Int := d - (d - 4).fmod 7

/-- Postgres `date_trunc('WEEK', t)` as used by the Weekly Analysis query:
the preceding Monday, 00:00 UTC (ISO week convention). -/
def truncWeek (t : Int) : Int := secondsPerDay * mondayIndex (dayIndex t)

/-- Day of month (1-based) of epoch day `z`, by the standard civil-calendar
conversion (proleptic Gregorian, the calendar Postgres uses). -/
def dayOfMonth (z : Int) : Nat :=
  let zs := z + 719468
  let era := zs.fdiv 146097
  let doe := (zs - era * 146097).toNat
  let yoe := (doe - doe / 1460 + doe / 36524 - doe / 146096) / 365
  let doy := doe - (365 * yoe + yoe / 4 - yoe / 100)
  let mp := (5 * doy + 2) / 153
  doy - (153 * mp + 2) / 5 + 1

/-- Postgres `date_trunc('month', t)` as used by the Monthly Analysis
query: 00:00 UTC on the first day of the month of `t`. -/
def truncMonth (t : Int) : Int :=
  let d := dayIndex t
  secondsPerDay * (d - ((dayOfMonth d : Int) - 1))

/-- `date_trunc` at the granularity chosen by the caller.  The week and
month cases embed the Weekly and Monthly Analysis queries; the day case is
the same `date_trunc` pattern at unit 'day' (the granularity the
`sentiment_timeseries` schema also allows). -/
def dateTrunc : PeriodType → Int → Int
  | PeriodType.day => truncDay
  | PeriodType.week => truncWeek
  | PeriodType.month => truncMonth

/-- Number of rows of `l` whose `sentiment` column equals `lab`; the SQL
aggregate `SUM(CASE WHEN t.sentiment = lab THEN 1 ELSE 0 END)` over a
group. -/
def countSentiment (lab : String) (l : List Tweet) : Nat :=
  (l.filter (fun t => t.sentiment == lab)).length

/-- One output row of the Weekly/Monthly Analysis queries: the truncated
period start (`week_start` / `month_start`), `COUNT(*) AS total_tweets`,
and the three `SUM(CASE WHEN ...)::decimal / COUNT(*)` ratio columns
(NUMERIC, modelled as exact rationals). -/
structure TimeBucket where
  period_start : Int
  total_tweets : Nat
  positive_ratio : Rat
  neutral_ratio : Rat
  negative_ratio : Rat
  deriving DecidableEq, Repr

/-- The rows of `items` falling in the period starting at `k`: the SQL
group of the `GROUP BY date_trunc(...)` clause. -/
def groupFor (items : List Tweet) (p : PeriodType) (k : Int) : List Tweet :=
  items.filter (fun t => dateTrunc p t.created_at == k)

/-- The aggregate row the analysis queries produce for the group of `items`
whose truncated `created_at` equals `k`. -/
def bucketFor (items : List Tweet) (p : PeriodType) (k : Int) : TimeBucket :=
  let group := groupFor items p k
  { period_start := k
    total_tweets := group.length
    positive_ratio := (countSentiment positiveLabel group : Rat) / (group.length : Rat)
    neutral_ratio := (countSentiment neutralLabel group : Rat) / (group.length : Rat)
    negative_ratio := (countSentiment negativeLabel group : Rat) / (group.length : Rat) }

/-- The Weekly/Monthly Analysis queries (`GROUP BY 1 ORDER BY 1`): one
aggregate row per distinct truncated period start among the input rows,
ordered ascending by that period start.  `items` is the already-fetched,
already-scoped row set (the SQL `WHERE a.username = ...` join filter is the
caller's responsibility, as in the spec). -/
def bucketByPeriod (items : List Tweet) (p : PeriodType) : List TimeBucket :=
  let keys := (items.map (fun t => dateTrunc p t.created_at)).dedup
  (List.insertionSort (fun a b => a ≤ b) keys).map (bucketFor items p)

/-- The `summary` object of the `SentimentReport` interface
(`types.ts`): raw counts per label. -/
structure Summary where
  positive : Nat
  neutral : Nat
  negative : Nat
  deriving DecidableEq, Repr

/-- The `SentimentReport` interface of `types.ts`: all analyzed tweets, the
per-label summary counts and the three top-lists (`top_positive`,
`top_neutral`, `top_negative`).  The untyped `graph_data: any[]` field is
out of the aggregation contract and is omitted. -/
structure SentimentReport where
  tweets : List Tweet
  summary : Summary
  top_positive : List Tweet
  top_neutral : List Tweet
  top_negative : List Tweet
  deriving DecidableEq, Repr

/-- Ranking key of a tweet inside a per-label top-list: confidence score
first, authorship timestamp second. -/
def scoreKey (t : Tweet) : Rat × Int := (t.sentiment_score, t.created_at)

/-- Lexicographic order on ranking keys: a smaller score, or an equal score
and a no-later timestamp. -/
def keyLe (x y : Rat × Int) : Prop := x.1 < y.1 ∨ (x.1 = y.1 ∧ x.2 ≤ y.2)

instance keyLe.instDecidable (x y : Rat × Int) : Decidable (keyLe x y) := by
  unfold keyLe
  infer_instance

/-- Stable descending insertion: `a` is placed before the first element
whose ranking key is at most `a`'s, so `a` lands after every
strictly higher-keyed element and before every tied one (fresh, earlier
input first among ties). -/
def insertDesc (a : Tweet) : List Tweet → List Tweet
  | [] => [a]
  | b :: l => if keyLe (scoreKey b) (scoreKey a) then a :: b :: l else b :: insertDesc a l

/-- Modelled from the spec: the per-label sort of `buildReport` section 4 —
descending by `score`, equal scores broken towards the later `createdAt`,
remaining ties kept in input order (stable sort).  The backend service code
that builds `SentimentReport` values is not part of the repository sources;
only its output interface (`types.ts`) and its HTTP callers are. -/
def sortDesc : List Tweet → List Tweet
  | [] => []
  | a :: l => insertDesc a (sortDesc l)

/-- Modelled from the spec: one per-label top-list of `buildReport` — the
items carrying `lab`, sorted by `sortDesc`, cut to the first `topN`. -/
def topList (lab : String) (items : List Tweet) (topN : Nat) : List Tweet :=
  (sortDesc (items.filter (fun t => t.sentiment == lab))).take topN

/-- Modelled from the spec: `buildReport(items, topN)` of section 4 —
overall per-label counts plus the three top-lists, packaged as the
`SentimentReport` interface of `types.ts`.  The backend code computing it
is not in the repository sources. -/
def buildReport (items : List Tweet) (topN : Nat) : SentimentReport :=
  { tweets := items
    summary :=
      { positive := countSentiment positiveLabel items
        neutral := countSentiment neutralLabel items
        negative := countSentiment negativeLabel items }
    top_positive := topList positiveLabel items topN
    top_neutral := topList neutralLabel items topN
    top_negative := topList negativeLabel items topN }

/-- An HTTP request as assembled by the frontend API client
(`services/api.ts`): URL, method and the JSON body fields. -/
structure Request where
  url : String
  method : String
  body : List (String × String)
  deriving DecidableEq, Repr

/-- The part of a `fetch` response the API client looks at: the `ok` flag
and the value `response.json()` parses to. -/
structure Response (β : Type) where
  ok : Bool
  json : β

def API_BASE_URL : String := "http://127.0.0.1:8000/api"

def userTweetsErrorMsg : String := "Failed to fetch user tweets"

def weeklyAnalysisErrorMsg : String := "Failed to fetch weekly analysis"

def sentimentReportsErrorMsg : String := "Failed to fetch sentiment reports"

def analyzeErrorMsg : String := "Failed to analyze tweets"

def userTweetsRequest (username : String) : Request :=
  { url := API_BASE_URL ++ "/user-tweets"
    method := "POST"
    body := [("username", username)] }

def weeklyAnalysisRequest (username : String) : Request :=
  { url := API_BASE_URL ++ "/user-tweets/weekly_or_monthly_analysis/" ++ username
    method := "GET"
    body := [] }

def sentimentReportsRequest (username : String) : Request :=
  { url := API_BASE_URL ++ "/reports/" ++ username
    method := "GET"
    body := [] }

def analyzeRequest (username : String) : Request :=
  { url := API_BASE_URL ++ "/analyze"
    method := "POST"
    body := [("query", username), ("max_tweets", "15")] }

/-- `getUserTweets` of `services/api.ts`: POST the username, throw on a
non-ok response, otherwise return the parsed JSON body.  The network is
abstracted as the `fetch` oracle; a thrown `Error` is `Except.error`. -/
def getUserTweets {β : Type} (username : String) (fetch : Request → Response β) :
    Except String β :=
  let response := fetch (userTweetsRequest username)
  if !response.ok then Except.error userTweetsErrorMsg
  else Except.ok response.json

/-- `getWeeklyAnalysis` of `services/api.ts`. -/
def getWeeklyAnalysis {β : Type} (username : String) (fetch : Request → Response β) :
    Except String β :=
  let response := fetch (weeklyAnalysisRequest username)
  if !response.ok then Except.error weeklyAnalysisErrorMsg
  else Except.ok response.json

/-- `getSentimentReports` of `services/api.ts`. -/
def getSentimentReports {β : Type} (username : String) (fetch : Request → Response β) :
    Except String β :=
  let response := fetch (sentimentReportsRequest username)
  if !response.ok then Except.error sentimentReportsErrorMsg
  else Except.ok response.json

/-- `analyzeTweets` of `services/api.ts`. -/
def analyzeTweets {β : Type} (username : String) (fetch : Request → Response β) :
    Except String β :=
  let response := fetch (analyzeRequest username)
  if !response.ok then Except.error analyzeErrorMsg
  else Except.ok response.json

/-- Row acceptance of `CREATE TABLE tweets`: the declared column
constraints are the VARCHAR length bounds — type VARCHAR(50), username
VARCHAR(255), sentiment VARCHAR(50).  The schema places no CHECK
constraint on `sentiment` (unlike `sentiment_timeseries.period_type`,
which has one) and none on `sentiment_score`. -/
def tweetsTableAccepts (t : Tweet) : Prop :=
  t.type.length ≤ 50 ∧ t.username.length ≤ 255 ∧ t.sentiment.length ≤ 50

instance tweetsTableAccepts.instDecidable (t : Tweet) :
    Decidable (tweetsTableAccepts t) := by
  unfold tweetsTableAccepts
  infer_instance

theorem bucketByPeriod_mem {items : List Tweet} {p : PeriodType} {b : TimeBucket}
    (hb : b ∈ bucketByPeriod items p) :
    ∃ k, (∃ t ∈ items, dateTrunc p t.created_at = k) ∧ b = bucketFor items p k := by
  unfold bucketByPeriod at hb
  simp only [List.mem_map] at hb
  obtain ⟨k, hk, hbk⟩ := hb
  have hk2 : k ∈ (items.map (fun t => dateTrunc p t.created_at)).dedup :=
    ((List.perm_insertionSort _ _).mem_iff).mp hk
  rw [List.mem_dedup, List.mem_map] at hk2
  obtain ⟨t, ht, hkt⟩ := hk2
  exact ⟨k, ⟨t, ht, hkt⟩, hbk.symm⟩

theorem groupFor_length_pos {items : List Tweet} {p : PeriodType} {k : Int}
    (h : ∃ t ∈ items, dateTrunc p t.created_at = k) :
    0 < (groupFor items p k).length := by
  obtain ⟨t, ht, hkt⟩ := h
  have hmem : t ∈ groupFor items p k := by
    unfold groupFor
    rw [List.mem_filter]
    exact ⟨ht, by simp [hkt]⟩
  exact List.length_pos.mpr (List.ne_nil_of_mem hmem)

/-- C8: the divisor of every ratio column of an emitted bucket is the
bucket's own row count, and a period start is only emitted when at least
one row truncates to it, so every emitted bucket's `COUNT(*)` is at least
one and the `::decimal / COUNT(*)` division never divides by zero. -/
theorem bucket_total_tweets_pos (items : List Tweet) (p : PeriodType)
    (b : TimeBucket) (hb : b ∈ bucketByPeriod items p) : 1 ≤ b.total_tweets := by
  obtain ⟨k, hex, rfl⟩ := bucketByPeriod_mem hb
  have := groupFor_length_pos hex
  simpa [bucketFor] using this

/-- C5: aggregating an empty row set yields an empty bucket list for every
granularity. -/
theorem bucketByPeriod_nil (p : PeriodType) : bucketByPeriod [] p = [] := rfl

/-- Two aggregation passes over the same snapshot, as a pair of runs of the
same pure SELECT. -/
def runTwice (items : List Tweet) (p : PeriodType) : List TimeBucket × List TimeBucket :=
  (bucketByPeriod items p, bucketByPeriod items p)

/-- C7: the aggregation is a pure function of the row set and the
granularity — running the SELECT twice on the same snapshot yields
identical output. -/
theorem bucketByPeriod_deterministic (items : List Tweet) (p : PeriodType) :
    (runTwice items p).1 = (runTwice items p).2 := rfl

/-- C2: the emitted buckets are sorted strictly ascending by period start —
`GROUP BY 1` makes the period starts pairwise distinct and `ORDER BY 1`
sorts them ascending. -/
theorem bucketByPeriod_sorted (items : List Tweet) (p : PeriodType) :
    (bucketByPeriod items p).Pairwise
      (fun b1 b2 => b1.period_start < b2.period_start) := by
  unfold bucketByPeriod
  rw [List.pairwise_map]
  have hs : List.Sorted (fun a b : Int => a ≤ b)
      (List.insertionSort (fun a b => a ≤ b)
        ((items.map (fun t => dateTrunc p t.created_at)).dedup)) :=
    List.sorted_insertionSort _ _
  have hn : (List.insertionSort (fun a b => a ≤ b)
      ((items.map (fun t => dateTrunc p t.created_at)).dedup)).Nodup :=
    ((List.perm_insertionSort _ _).nodup_iff).mpr (List.nodup_dedup _)
  have hlt := (hs.and hn).imp (fun h => lt_of_le_of_ne h.1 h.2)
  exact hlt.imp (fun h => h)

theorem countSentiment_partition (l : List Tweet)
    (h : ∀ t ∈ l, t.sentiment = positiveLabel ∨ t.sentiment = neutralLabel ∨
      t.sentiment = negativeLabel) :
    countSentiment positiveLabel l + countSentiment neutralLabel l +
      countSentiment negativeLabel l = l.length := by
  induction l with
  | nil => rfl
  | cons a l ih =>
    have ha := h a (List.mem_cons_self a l)
    have ih2 := ih (fun t ht => h t (List.mem_cons_of_mem a ht))
    unfold countSentiment at ih2 ⊢
    unfold positiveLabel neutralLabel negativeLabel at ih2 ha ⊢
    simp only [List.filter_cons]
    rcases ha with h1 | h1 | h1 <;> simp [h1] <;> omega

/-- C1: for every emitted bucket over a validated row set (every sentiment
among the three labels), the three ratio columns sum exactly to 1 — so in
particular within any floating-point tolerance. -/
theorem bucket_ratio_sum (items : List Tweet) (p : PeriodType) (b : TimeBucket)
    (hb : b ∈ bucketByPeriod items p)
    (hvalid : ∀ t ∈ items, t.sentiment = positiveLabel ∨
      t.sentiment = neutralLabel ∨ t.sentiment = negativeLabel) :
    b.positive_ratio + b.neutral_ratio + b.negative_ratio = 1 := by
  obtain ⟨k, hex, rfl⟩ := bucketByPeriod_mem hb
  have hpos := groupFor_length_pos hex
  have hvalid2 : ∀ t ∈ groupFor items p k, t.sentiment = positiveLabel ∨
      t.sentiment = neutralLabel ∨ t.sentiment = negativeLabel :=
    fun t ht => hvalid t (List.mem_of_mem_filter ht)
  have hsum := countSentiment_partition (groupFor items p k) hvalid2
  simp only [bucketFor]
  rw [div_add_div_same, div_add_div_same]
  have hcast : ((countSentiment positiveLabel (groupFor items p k) : Rat) +
      (countSentiment neutralLabel (groupFor items p k) : Rat) +
      (countSentiment negativeLabel (groupFor items p k) : Rat)) =
      ((groupFor items p k).length : Rat) := by
    exact_mod_cast congrArg (fun n : Nat => (n : Rat)) hsum
  rw [hcast]
  exact div_self (Nat.cast_ne_zero.mpr (by omega))

/-- A concrete classified row: a positive post from Monday 1970-01-12
(timestamp 1000000). -/
def sampleTweet : Tweet :=
  { tweet_id := 1
    analysis_id := 1
    type := "post"
    username := "getgrass_io"
    text := "sample"
    created_at := 1000000
    sentiment := positiveLabel
    sentiment_score := 9/10 }

def sampleItems : List Tweet := [sampleTweet]

/-- The single weekly bucket of `sampleItems`: week of Monday 1970-01-12
(timestamp 950400). -/
def sampleBucket : TimeBucket :=
  { period_start := 950400
    total_tweets := 1
    positive_ratio := 1
    neutral_ratio := 0
    negative_ratio := 0 }

theorem sample_buckets_eval :
    bucketByPeriod sampleItems PeriodType.week = [sampleBucket] := by
  have h1 : dateTrunc PeriodType.week (1000000 : Int) = 950400 := by decide
  unfold bucketByPeriod bucketFor groupFor countSentiment sampleItems
  simp [sampleTweet, h1, List.insertionSort, List.orderedInsert, sampleBucket,
    positiveLabel, neutralLabel, negativeLabel]

theorem sample_bucket_mem :
    sampleBucket ∈ bucketByPeriod sampleItems PeriodType.week := by
  rw [sample_buckets_eval]
  exact List.mem_singleton.mpr rfl

theorem bucket_ratio_sum_witness :
    sampleBucket.positive_ratio + sampleBucket.neutral_ratio +
      sampleBucket.negative_ratio = 1 :=
  bucket_ratio_sum sampleItems PeriodType.week sampleBucket sample_bucket_mem
    (by decide)

theorem bucket_total_tweets_pos_witness : 1 ≤ sampleBucket.total_tweets :=
  bucket_total_tweets_pos sampleItems PeriodType.week sampleBucket sample_bucket_mem

theorem keyLe_refl (x : Rat × Int) : keyLe x x := Or.inr ⟨rfl, le_refl _⟩

theorem keyLe_trans {x y z : Rat × Int} (h1 : keyLe x y) (h2 : keyLe y z) :
    keyLe x z := by
  rcases h1 with h1 | ⟨h1, h1b⟩ <;> rcases h2 with h2 | ⟨h2, h2b⟩
  · exact Or.inl (lt_trans h1 h2)
  · exact Or.inl (h2 ▸ h1)
  · exact Or.inl (h1 ▸ h2)
  · exact Or.inr ⟨h1.trans h2, le_trans h1b h2b⟩

theorem keyLe_of_not_keyLe {x y : Rat × Int} (h : ¬ keyLe x y) : keyLe y x := by
  unfold keyLe at h ⊢
  push_neg at h
  obtain ⟨h1, h2⟩ := h
  rcases lt_or_eq_of_le h1 with h3 | h3
  · exact Or.inl h3
  · exact Or.inr ⟨h3, le_of_lt (h2 h3.symm)⟩

/-- The per-label ranking order: `a` ranks no lower than `b` — a strictly
higher score, or an equal score and a no-earlier authorship timestamp. -/
def rankGe (a b : Tweet) : Prop := keyLe (scoreKey b) (scoreKey a)

theorem mem_insertDesc {x a : Tweet} {l : List Tweet} :
    x ∈ insertDesc a l ↔ x = a ∨ x ∈ l := by
  induction l with
  | nil => simp [insertDesc]
  | cons b l ih =>
    unfold insertDesc
    by_cases h : keyLe (scoreKey b) (scoreKey a)
    · simp [h]
    · simp only [if_neg h, List.mem_cons, ih]
      tauto

theorem pairwise_insertDesc {a : Tweet} {l : List Tweet}
    (hl : l.Pairwise rankGe) : (insertDesc a l).Pairwise rankGe := by
  induction l with
  | nil => simp [insertDesc]
  | cons b l ih =>
    rcases List.pairwise_cons.mp hl with ⟨hb, hl2⟩
    unfold insertDesc
    by_cases h : keyLe (scoreKey b) (scoreKey a)
    · rw [if_pos h]
      refine List.pairwise_cons.mpr ⟨?_, hl⟩
      intro x hx
      rcases List.mem_cons.mp hx with rfl | hx
      · exact h
      · exact keyLe_trans (hb x hx) h
    · rw [if_neg h]
      refine List.pairwise_cons.mpr ⟨?_, ih hl2⟩
      intro x hx
      rcases mem_insertDesc.mp hx with rfl | hx
      · exact keyLe_of_not_keyLe h
      · exact hb x hx

theorem sortDesc_pairwise (l : List Tweet) : (sortDesc l).Pairwise rankGe := by
  induction l with
  | nil => exact List.Pairwise.nil
  | cons a l ih => exact pairwise_insertDesc ih

theorem length_insertDesc (a : Tweet) (l : List Tweet) :
    (insertDesc a l).length = l.length + 1 := by
  induction l with
  | nil => rfl
  | cons b l ih =>
    unfold insertDesc
    by_cases h : keyLe (scoreKey b) (scoreKey a)
    · simp [h]
    · simp [h, ih]

theorem length_sortDesc (l : List Tweet) : (sortDesc l).length = l.length := by
  induction l with
  | nil => rfl
  | cons a l ih => simp [sortDesc, length_insertDesc, ih]

theorem filter_insertDesc (a : Tweet) (l : List Tweet) (k : Rat × Int) :
    (insertDesc a l).filter (fun t => scoreKey t == k) =
      if scoreKey a == k then a :: l.filter (fun t => scoreKey t == k)
      else l.filter (fun t => scoreKey t == k) := by
  induction l with
  | nil =>
    by_cases h2 : scoreKey a == k
    · simp [insertDesc, h2]
    · simp [insertDesc, h2]
  | cons b l ih =>
    unfold insertDesc
    by_cases h : keyLe (scoreKey b) (scoreKey a)
    · rw [if_pos h]
      by_cases ha : scoreKey a == k
      · simp [List.filter_cons, ha]
      · simp [List.filter_cons, ha]
    · rw [if_neg h]
      by_cases hb : scoreKey b == k
      · by_cases ha : scoreKey a == k
        · exfalso
          have h1 : scoreKey a = k := by simpa using ha
          have h2 : scoreKey b = k := by simpa using hb
          refine h ?_
          rw [h2, h1]
          exact keyLe_refl k
        · simp [List.filter_cons, hb, ha, ih]
      · simp [List.filter_cons, hb, ih]

theorem filter_sortDesc (l : List Tweet) (k : Rat × Int) :
    (sortDesc l).filter (fun t => scoreKey t == k) =
      l.filter (fun t => scoreKey t == k) := by
  induction l with
  | nil => rfl
  | cons a l ih =>
    unfold sortDesc
    rw [filter_insertDesc, List.filter_cons]
    by_cases h : scoreKey a == k
    · simp [h, ih]
    · simp [h, ih]

theorem topList_pairwise (lab : String) (items : List Tweet) (n : Nat) :
    (topList lab items n).Pairwise rankGe :=
  (sortDesc_pairwise _).sublist (List.take_sublist n _)

theorem topList_stable (lab : String) (items : List Tweet) (n : Nat)
    (k : Rat × Int) :
    (topList lab items n).filter (fun t => scoreKey t == k) <+:
      items.filter (fun t => scoreKey t == k && t.sentiment == lab) := by
  unfold topList
  have h1 : (sortDesc (items.filter (fun t => t.sentiment == lab))).take n <+:
      sortDesc (items.filter (fun t => t.sentiment == lab)) :=
    List.take_prefix _ _
  have h2 := h1.filter (fun t => scoreKey t == k)
  rw [filter_sortDesc, List.filter_filter] at h2
  exact h2

theorem topList_length (lab : String) (items : List Tweet) (n : Nat) :
    (topList lab items n).length = min n (countSentiment lab items) := by
  unfold topList countSentiment
  rw [List.length_take, length_sortDesc]

/-- A top-list `L` drawn from `items` for label `lab` is ordered by the
ranking key — strictly higher scores first, equal scores broken towards
the later `created_at` — and is stable: the members sharing any one exact
ranking key appear as a prefix of the `lab`-labeled rows of `items` with
that key, in their original input order. -/
def orderedAndStable (L : List Tweet) (lab : String) (items : List Tweet) : Prop :=
  L.Pairwise rankGe ∧
  ∀ k : Rat × Int, L.filter (fun t => scoreKey t == k) <+:
    items.filter (fun t => scoreKey t == k && t.sentiment == lab)

/-- C3: every per-label top-list of `buildReport` is sorted descending by
score, ties on score are broken towards the later `created_at`, and rows
still tied keep their original input order (the sort is stable). -/
theorem report_top_lists_ordered (items : List Tweet) (topN : Nat) :
    orderedAndStable ((buildReport items topN).top_positive) positiveLabel items ∧
    orderedAndStable ((buildReport items topN).top_neutral) neutralLabel items ∧
    orderedAndStable ((buildReport items topN).top_negative) negativeLabel items := by
  refine ⟨⟨?_, ?_⟩, ⟨?_, ?_⟩, ⟨?_, ?_⟩⟩ <;>
    first
      | exact topList_pairwise _ _ _
      | exact fun k => topList_stable _ _ _ k

/-- C4: each top-list holds exactly `min topN k` rows, where `k` is the
size of the corresponding label group — never more than `topN`, exactly the
group size when the group is smaller, with no padding and no failure. -/
theorem report_top_lists_length (items : List Tweet) (topN : Nat) :
    ((buildReport items topN).top_positive).length =
      min topN (countSentiment positiveLabel items) ∧
    ((buildReport items topN).top_neutral).length =
      min topN (countSentiment neutralLabel items) ∧
    ((buildReport items topN).top_negative).length =
      min topN (countSentiment negativeLabel items) :=
  ⟨topList_length _ _ _, topList_length _ _ _, topList_length _ _ _⟩

/-- C6: a report over an empty collection has an all-zero summary and three
empty top-lists — no failure. -/
theorem buildReport_nil (topN : Nat) :
    (buildReport [] topN).summary = { positive := 0, neutral := 0, negative := 0 } ∧
    (buildReport [] topN).top_positive = [] ∧
    (buildReport [] topN).top_neutral = [] ∧
    (buildReport [] topN).top_negative = [] := by
  refine ⟨rfl, ?_, ?_, ?_⟩ <;> simp [buildReport, topList, sortDesc]

def otherLabel : String := "other"

/-- A row whose sentiment label is arbitrary and whose score is 2 — outside
the [0, 1] confidence domain; all VARCHAR fields fit their declared
widths. -/
def invalidTweet (s : String) : Tweet :=
  { tweet_id := 2
    analysis_id := 1
    type := "post"
    username := "getgrass_io"
    text := "sample"
    created_at := 1000000
    sentiment := s
    sentiment_score := 2 }

/-- C9 counterexample: a row whose label is outside the three-label
enumeration and whose score is outside [0, 1] is nevertheless accepted by
the `tweets` table schema — `sentiment VARCHAR(50)` and `sentiment_score
NUMERIC` carry no CHECK constraint, so no validation failure occurs at the
store boundary. -/
theorem invalid_label_accepted :
    (invalidTweet otherLabel).sentiment ≠ positiveLabel ∧
    (invalidTweet otherLabel).sentiment ≠ neutralLabel ∧
    (invalidTweet otherLabel).sentiment ≠ negativeLabel ∧
    1 < (invalidTweet otherLabel).sentiment_score ∧
    tweetsTableAccepts (invalidTweet otherLabel) :=
  ⟨by decide, by decide, by decide, by norm_num [invalidTweet], by decide⟩

/-- C9 amended: the item-store boundary does not validate labels — any
sentiment string within the VARCHAR(50) width is accepted by the `tweets`
schema — and no failure is raised inside aggregation either: the row still
produces its bucket. -/
theorem label_not_validated (s : String) (hs : s.length ≤ 50) :
    tweetsTableAccepts (invalidTweet s) ∧
    (bucketByPeriod [invalidTweet s] PeriodType.week).length = 1 := by
  constructor
  · unfold tweetsTableAccepts invalidTweet
    refine ⟨?_, ?_, hs⟩
    · show ("post" : String).length ≤ 50
      decide
    · show ("getgrass_io" : String).length ≤ 255
      decide
  · rfl

theorem label_not_validated_witness :
    tweetsTableAccepts (invalidTweet otherLabel) ∧
    (bucketByPeriod [invalidTweet otherLabel] PeriodType.week).length = 1 :=
  label_not_validated otherLabel (by decide)

/-- C10: each of the four API-client functions fails exactly when the
fetched response is not ok — with its own error message — and on an ok
response returns the response's parsed JSON body. -/
theorem api_client_error_iff (β : Type) (username : String)
    (fetch : Request → Response β) :
    ((∃ e, getUserTweets username fetch = Except.error e) ↔
      (fetch (userTweetsRequest username)).ok = false) ∧
    ((fetch (userTweetsRequest username)).ok = true →
      getUserTweets username fetch =
        Except.ok (fetch (userTweetsRequest username)).json) ∧
    ((∃ e, getWeeklyAnalysis username fetch = Except.error e) ↔
      (fetch (weeklyAnalysisRequest username)).ok = false) ∧
    ((fetch (weeklyAnalysisRequest username)).ok = true →
      getWeeklyAnalysis username fetch =
        Except.ok (fetch (weeklyAnalysisRequest username)).json) ∧
    ((∃ e, getSentimentReports username fetch = Except.error e) ↔
      (fetch (sentimentReportsRequest username)).ok = false) ∧
    ((fetch (sentimentReportsRequest username)).ok = true →
      getSentimentReports username fetch =
        Except.ok (fetch (sentimentReportsRequest username)).json) ∧
    ((∃ e, analyzeTweets username fetch = Except.error e) ↔
      (fetch (analyzeRequest username)).ok = false) ∧
    ((fetch (analyzeRequest username)).ok = true →
      analyzeTweets username fetch =
        Except.ok (fetch (analyzeRequest username)).json) := by
  refine ⟨?_, ?_, ?_, ?_, ?_, ?_, ?_, ?_⟩
  · cases h : (fetch (userTweetsRequest username)).ok <;>
      simp [getUserTweets, h]
  · cases h : (fetch (userTweetsRequest username)).ok <;>
      simp [getUserTweets, h]
  · cases h : (fetch (weeklyAnalysisRequest username)).ok <;>
      simp [getWeeklyAnalysis, h]
  · cases h : (fetch (weeklyAnalysisRequest username)).ok <;>
      simp [getWeeklyAnalysis, h]
  · cases h : (fetch (sentimentReportsRequest username)).ok <;>
      simp [getSentimentReports, h]
  · cases h : (fetch (sentimentReportsRequest username)).ok <;>
      simp [getSentimentReports, h]
  · cases h : (fetch (analyzeRequest username)).ok <;>
      simp [analyzeTweets, h]
  · cases h : (fetch (analyzeRequest username)).ok <;>
      simp [analyzeTweets, h]
